import Mathlib

/-
Verification of the milkshaker_visualizer audio pipeline.

This file gives a shallow embedding, over exact rational arithmetic, of the
audio components of the repository:

  * SystemPeakAnalyzer (the decaying peak envelope)       -- part_014
  * AudioPlayer tick feed into the analyzer               -- part_014
  * AudioManager device enumeration, capture lifecycle    -- main.go
  * Player capture lifecycle, two CycleDevice revisions   -- part_000, part_001

Go float64 values are modelled as rationals, portaudio streams by an
Option Nat holding the index of the device the stream was opened on, and
the native open/start calls by boolean oracles describing which devices
the OS accepts.
-/

namespace Milkshaker

/-! ## SystemPeakAnalyzer (src/unnamed/part_014, lines 20-46) -/

structure SystemPeakAnalyzer where
  Peak : ℚ
  decay : ℚ
deriving DecidableEq, Repr

/-- Constructor NewSystemPeakAnalyzer: envelope 0, decay 0.95. -/
def NewSystemPeakAnalyzer : SystemPeakAnalyzer :=
  { Peak := 0, decay := 95 / 100 }

/-- UpdatePeak: first multiplies the envelope by the decay factor, then
raises it to the input when the input is larger. -/
def UpdatePeak (a : SystemPeakAnalyzer) (peak : ℚ) : SystemPeakAnalyzer :=
  let decayed := a.Peak * a.decay
  if peak > decayed then { a with Peak := peak } else { a with Peak := decayed }

/-- GetPeak: returns the current envelope and leaves the analyzer as it was. -/
def GetPeak (a : SystemPeakAnalyzer) : ℚ × SystemPeakAnalyzer :=
  (a.Peak, a)

/-- An abstract client operation on the analyzer. -/
inductive PeakOp where
  | update (p : ℚ)
  | read
deriving Repr

/-- Run a sequence of analyzer operations. -/
def runOps (a : SystemPeakAnalyzer) : List PeakOp → SystemPeakAnalyzer
  | [] => a
  | PeakOp.update p :: rest => runOps (UpdatePeak a p) rest
  | PeakOp.read :: rest => runOps (GetPeak a).2 rest

/-- All update inputs in the sequence are nonnegative. -/
def OpsNonneg (ops : List PeakOp) : Prop :=
  ∀ p : ℚ, PeakOp.update p ∈ ops → 0 ≤ p

theorem updatePeak_peak (a : SystemPeakAnalyzer) (p : ℚ) :
    (UpdatePeak a p).Peak = max (a.Peak * a.decay) p := by
  unfold UpdatePeak
  by_cases h : p > a.Peak * a.decay
  · simp [h, max_eq_right (le_of_lt h)]
  · simp [h, max_eq_left (le_of_not_lt h)]

theorem updatePeak_decay (a : SystemPeakAnalyzer) (p : ℚ) :
    (UpdatePeak a p).decay = a.decay := by
  unfold UpdatePeak
  by_cases h : p > a.Peak * a.decay <;> simp [h]

theorem runOps_decay (ops : List PeakOp) :
    ∀ a : SystemPeakAnalyzer, (runOps a ops).decay = a.decay := by
  induction ops with
  | nil => intro a; rfl
  | cons op rest ih =>
      intro a
      cases op with
      | update p => rw [runOps, ih, updatePeak_decay]
      | read => rw [runOps, ih]; rfl

theorem runOps_peak_nonneg (ops : List PeakOp) :
    ∀ a : SystemPeakAnalyzer, 0 ≤ a.Peak → 0 ≤ a.decay → OpsNonneg ops →
      0 ≤ (runOps a ops).Peak := by
  induction ops with
  | nil => intro a hP _ _; exact hP
  | cons op rest ih =>
      intro a hP hd hops
      cases op with
      | update p =>
          rw [runOps]
          refine ih (UpdatePeak a p) ?_ ?_ ?_
          · rw [updatePeak_peak]
            exact le_max_of_le_left (mul_nonneg hP hd)
          · rw [updatePeak_decay]; exact hd
          · intro q hq
            exact hops q (List.mem_cons_of_mem _ hq)
      | read =>
          rw [runOps]
          refine ih a hP hd ?_
          intro q hq
          exact hops q (List.mem_cons_of_mem _ hq)

theorem runOps_updateZero_pow (n : ℕ) :
    ∀ a : SystemPeakAnalyzer, 0 ≤ a.Peak → 0 ≤ a.decay →
      (runOps a (List.replicate n (PeakOp.update 0))).Peak = a.Peak * a.decay ^ n := by
  induction n with
  | zero => intro a _ _; simp [runOps]
  | succ m ih =>
      intro a hP hd
      rw [List.replicate_succ, runOps,
        ih (UpdatePeak a 0) (by rw [updatePeak_peak]; exact le_max_right _ _) (by rwa [updatePeak_decay])]
      rw [updatePeak_peak, updatePeak_decay, max_eq_left (mul_nonneg hP hd)]
      ring

/-! ## Peak computation shared by the audio callbacks

Both audio callbacks compute the maximum absolute sample value across all
channels of the delivered buffer, starting from peak = 0. -/

def channelPeak (acc : ℚ) (channel : List ℚ) : ℚ :=
  channel.foldl (fun peak sample => if |sample| > peak then |sample| else peak) acc

def bufferPeak (inputBuffer : List (List ℚ)) : ℚ :=
  inputBuffer.foldl channelPeak 0

theorem channelPeak_ge_acc (channel : List ℚ) :
    ∀ acc : ℚ, acc ≤ channelPeak acc channel := by
  induction channel with
  | nil => intro acc; exact le_refl acc
  | cons x rest ih =>
      intro acc
      rw [channelPeak, List.foldl_cons]
      by_cases h : |x| > acc
      · simp only [h, if_pos]
        exact le_trans (le_of_lt h) (ih |x|)
      · simp only [h, if_neg]
        exact ih acc

theorem bufferPeak_nonneg (inputBuffer : List (List ℚ)) : 0 ≤ bufferPeak inputBuffer := by
  rw [bufferPeak]
  have h : ∀ (l : List (List ℚ)) (acc : ℚ), acc ≤ l.foldl channelPeak acc := by
    intro l
    induction l with
    | nil => intro acc; exact le_refl acc
    | cons ch rest ih =>
        intro acc
        rw [List.foldl_cons]
        exact le_trans (channelPeak_ge_acc ch acc) (ih (channelPeak acc ch))
  exact h inputBuffer 0

/-! ## AudioManager device enumeration (src/main.go, lines 998-1184)

The snapshot of the OS routing layer is modelled by the parsed name column
of the pactl source listing, the set of sink names reported RUNNING, and
the portaudio device list.  Blank and short lines of the raw pactl output
are dropped before this point and carry no device, so the model starts
from the parsed names. -/

inductive DevType where
  | pulseMonitor
  | portaudio
deriving DecidableEq, Repr

structure DeviceEntry where
  source : String
  dtype : DevType
deriving DecidableEq, Repr

structure PADeviceInfo where
  name : String
  maxInputChannels : Nat
deriving DecidableEq, Repr

/-- Whether the second character list starts with the first. -/
def listStartsWith : List Char → List Char → Bool
  | [], _ => true
  | _ :: _, [] => false
  | p :: ps, t :: ts => p == t && listStartsWith ps ts

/-- Whether the second character list contains the first as a contiguous
subsequence. -/
def listContainsSeq (pattern : List Char) : List Char → Bool
  | [] => pattern.isEmpty
  | t :: ts => listStartsWith pattern (t :: ts) || listContainsSeq pattern ts

/-- strings.Contains(sourceName, ".monitor"). -/
def containsMonitor (s : String) : Bool :=
  listContainsSeq ".monitor".data s.data

/-- strings.TrimSuffix(sourceName, ".monitor"): remove the suffix when
present, otherwise leave the string unchanged. -/
def trimMonitorSuffix (s : String) : String :=
  if listStartsWith ".monitor".data.reverse s.data.reverse then
    String.mk (s.data.take (s.data.length - ".monitor".length))
  else s

/-- One iteration of the source-listing loop of detectPulseMonitorSources:
skip anything that is not a monitor source; a monitor whose base sink is
RUNNING is inserted at the beginning of the device list, any other monitor
is appended at the end. -/
def pulseStep (runningSinks : List String) (devices : List DeviceEntry)
    (sourceName : String) : List DeviceEntry :=
  if containsMonitor sourceName = false then devices
  else
    let baseSinkName := trimMonitorSuffix sourceName
    let priority : Nat := if runningSinks.contains baseSinkName then 0 else 1
    let device : DeviceEntry := { source := sourceName, dtype := DevType.pulseMonitor }
    if priority = 0 then device :: devices else devices ++ [device]

/-- detectPulseMonitorSources: walk the source listing in discovery order,
accumulating monitor devices with pulseStep. -/
def detectPulseMonitorSources (runningSinks : List String) (sources : List String) :
    List DeviceEntry :=
  sources.foldl (pulseStep runningSinks) []

/-- detectPortAudioDevices: append the input-capable native devices in
discovery order. -/
def detectPortAudioDevices (paDevices : List PADeviceInfo) : List DeviceEntry :=
  (paDevices.filter (fun d => 0 < d.maxInputChannels)).map
    (fun d => { source := d.name, dtype := DevType.portaudio })

/-- detectAudioSources: monitor sources first, then native devices. -/
def detectAudioSources (runningSinks : List String) (sources : List String)
    (paDevices : List PADeviceInfo) : List DeviceEntry :=
  detectPulseMonitorSources runningSinks sources ++ detectPortAudioDevices paDevices

/-- A monitor source whose base sink is currently RUNNING. -/
def isRunningMonitor (runningSinks : List String) (s : String) : Bool :=
  containsMonitor s && runningSinks.contains (trimMonitorSuffix s)

/-- A monitor source whose base sink is not RUNNING. -/
def isIdleMonitor (runningSinks : List String) (s : String) : Bool :=
  containsMonitor s && !(runningSinks.contains (trimMonitorSuffix s))

def mkMonitorEntry (s : String) : DeviceEntry :=
  { source := s, dtype := DevType.pulseMonitor }

theorem pulseStep_skip (runningSinks : List String) (devices : List DeviceEntry)
    (s : String) (hm : containsMonitor s = false) :
    pulseStep runningSinks devices s = devices := by
  rw [pulseStep, hm]
  simp

theorem pulseStep_running (runningSinks : List String) (devices : List DeviceEntry)
    (s : String) (hm : containsMonitor s = true)
    (hr : runningSinks.contains (trimMonitorSuffix s) = true) :
    pulseStep runningSinks devices s = mkMonitorEntry s :: devices := by
  simp only [pulseStep, hm, hr, mkMonitorEntry]
  simp

theorem pulseStep_idle (runningSinks : List String) (devices : List DeviceEntry)
    (s : String) (hm : containsMonitor s = true)
    (hr : runningSinks.contains (trimMonitorSuffix s) = false) :
    pulseStep runningSinks devices s = devices ++ [mkMonitorEntry s] := by
  simp only [pulseStep, hm, hr, mkMonitorEntry]
  simp

theorem detectPulse_foldl_characterization (runningSinks : List String) :
    ∀ (sources : List String) (acc : List DeviceEntry),
      sources.foldl (pulseStep runningSinks) acc =
        ((sources.filter (isRunningMonitor runningSinks)).reverse.map mkMonitorEntry)
          ++ acc
          ++ ((sources.filter (isIdleMonitor runningSinks)).map mkMonitorEntry) := by
  intro sources
  induction sources with
  | nil => intro acc; simp
  | cons s rest ih =>
      intro acc
      rw [List.foldl_cons]
      cases hm : containsMonitor s with
      | false =>
          have hrun : isRunningMonitor runningSinks s = false := by
            rw [isRunningMonitor, hm]; rfl
          have hidle : isIdleMonitor runningSinks s = false := by
            rw [isIdleMonitor, hm]; rfl
          rw [pulseStep_skip runningSinks acc s hm, ih acc]
          simp [List.filter_cons, hrun, hidle]
      | true =>
          cases hr : runningSinks.contains (trimMonitorSuffix s) with
          | true =>
              have hrun : isRunningMonitor runningSinks s = true := by
                rw [isRunningMonitor, hm, hr]; rfl
              have hidle : isIdleMonitor runningSinks s = false := by
                rw [isIdleMonitor, hm, hr]; rfl
              rw [pulseStep_running runningSinks acc s hm hr,
                ih (mkMonitorEntry s :: acc)]
              simp [List.filter_cons, hrun, hidle]
          | false =>
              have hrun : isRunningMonitor runningSinks s = false := by
                rw [isRunningMonitor, hm, hr]; rfl
              have hidle : isIdleMonitor runningSinks s = true := by
                rw [isIdleMonitor, hm, hr]; rfl
              rw [pulseStep_idle runningSinks acc s hm hr,
                ih (acc ++ [mkMonitorEntry s])]
              simp [List.filter_cons, hrun, hidle]

theorem detectAudioSources_characterization (runningSinks : List String)
    (sources : List String) (paDevices : List PADeviceInfo) :
    detectAudioSources runningSinks sources paDevices =
      ((sources.filter (isRunningMonitor runningSinks)).reverse.map mkMonitorEntry)
        ++ ((sources.filter (isIdleMonitor runningSinks)).map mkMonitorEntry)
        ++ detectPortAudioDevices paDevices := by
  rw [detectAudioSources, detectPulseMonitorSources,
    detectPulse_foldl_characterization runningSinks sources []]
  simp [List.append_assoc]

/-! ## Stream opening with configuration fallback
(src/main.go, openStreamWithDevice, lines 1230-1267) -/

structure StreamConfig where
  channels : Nat
  sampleRate : Nat
  bufferSize : Nat
deriving DecidableEq, Repr

/-- The fixed preference table of stream configurations. -/
def streamConfigs : List StreamConfig :=
  [{ channels := 2, sampleRate := 44100, bufferSize := 1024 },
   { channels := 1, sampleRate := 44100, bufferSize := 1024 },
   { channels := 2, sampleRate := 48000, bufferSize := 1024 },
   { channels := 1, sampleRate := 48000, bufferSize := 512 }]

/-- The loop body of openStreamWithDevice: skip a configuration that asks
for more channels than the device has, otherwise attempt the native open
and stop at the first success. -/
def tryConfigs (accepts : StreamConfig → Bool) (maxInputChannels : Nat) :
    List StreamConfig → Option StreamConfig
  | [] => none
  | c :: rest =>
      if maxInputChannels < c.channels then tryConfigs accepts maxInputChannels rest
      else if accepts c then some c
      else tryConfigs accepts maxInputChannels rest

/-- openStreamWithDevice: run the fallback loop over the preference table;
the result is the configuration the stream was opened with, none meaning
the final "failed to open audio stream" error. -/
def openStreamWithDevice (accepts : StreamConfig → Bool) (maxInputChannels : Nat) :
    Option StreamConfig :=
  tryConfigs accepts maxInputChannels streamConfigs

theorem tryConfigs_eq_none_iff (accepts : StreamConfig → Bool) (maxInputChannels : Nat) :
    ∀ cfgs : List StreamConfig,
      tryConfigs accepts maxInputChannels cfgs = none ↔
        ∀ c ∈ cfgs, maxInputChannels < c.channels ∨ accepts c = false := by
  intro cfgs
  induction cfgs with
  | nil => simp [tryConfigs]
  | cons c rest ih =>
      rw [tryConfigs]
      by_cases hskip : maxInputChannels < c.channels
      · rw [if_pos hskip, ih]
        constructor
        · intro h x hx
          rcases List.mem_cons.mp hx with rfl | hx2
          · exact Or.inl hskip
          · exact h x hx2
        · intro h x hx
          exact h x (List.mem_cons_of_mem _ hx)
      · rw [if_neg hskip]
        by_cases hacc : accepts c = true
        · rw [if_pos hacc]
          constructor
          · intro h; exact absurd h (by simp)
          · intro h
            rcases h c (List.mem_cons_self _ _) with h1 | h2
            · exact absurd h1 hskip
            · rw [hacc] at h2; exact absurd h2 (by simp)
        · rw [if_neg hacc, ih]
          constructor
          · intro h x hx
            rcases List.mem_cons.mp hx with rfl | hx2
            · right
              cases hb : accepts x
              · rfl
              · exact absurd hb hacc
            · exact h x hx2
          · intro h x hx
            exact h x (List.mem_cons_of_mem _ hx)

theorem tryConfigs_eq_some (accepts : StreamConfig → Bool) (maxInputChannels : Nat) :
    ∀ (cfgs : List StreamConfig) (c : StreamConfig),
      tryConfigs accepts maxInputChannels cfgs = some c →
        c.channels ≤ maxInputChannels ∧ accepts c = true ∧
        ∃ pre post, cfgs = pre ++ c :: post ∧
          ∀ x ∈ pre, maxInputChannels < x.channels ∨ accepts x = false := by
  intro cfgs
  induction cfgs with
  | nil => intro c h; exact absurd h (by simp [tryConfigs])
  | cons d rest ih =>
      intro c h
      rw [tryConfigs] at h
      by_cases hskip : maxInputChannels < d.channels
      · rw [if_pos hskip] at h
        obtain ⟨h1, h2, pre, post, hsplit, hpre⟩ := ih c h
        refine ⟨h1, h2, d :: pre, post, by rw [hsplit, List.cons_append], ?_⟩
        intro x hx
        rcases List.mem_cons.mp hx with rfl | hx2
        · exact Or.inl hskip
        · exact hpre x hx2
      · rw [if_neg hskip] at h
        by_cases hacc : accepts d = true
        · rw [if_pos hacc] at h
          obtain rfl : d = c := Option.some_injective _ h
          exact ⟨Nat.le_of_not_lt hskip, hacc, [], rest, rfl, by simp⟩
        · rw [if_neg hacc] at h
          obtain ⟨h1, h2, pre, post, hsplit, hpre⟩ := ih c h
          refine ⟨h1, h2, d :: pre, post, by rw [hsplit, List.cons_append], ?_⟩
          intro x hx
          rcases List.mem_cons.mp hx with rfl | hx2
          · right
            cases hb : accepts x
            · rfl
            · exact absurd hb hacc
          · exact hpre x hx2

/-! ## AudioManager capture lifecycle (src/main.go, lines 952-1370)

Devices are identified by their index in the enumerated list.  The stream
handle is an Option Nat: some i means a stream is open on device i, none
means no stream (nil pointer).  The oracle opens i tells whether the whole
OpenCurrentDevice attempt for device i succeeds, and startOk whether the
native Stream.Start call succeeds.  A Bool result models the returned
error: true is a nil error. -/

/-- A call into the native audio subsystem observable from outside. -/
inductive NativeAction where
  | closeStream
  | terminate
deriving DecidableEq, Repr

structure AMState where
  numDevices : Nat
  currentDeviceIdx : Nat
  paStream : Option Nat
  isCapturing : Bool
  isInitialized : Bool
  peakLevel : ℚ
deriving DecidableEq, Repr

namespace AudioManager

/-- OpenCurrentDevice: reject an out-of-range index, close any existing
stream, then open the current device. -/
def OpenCurrentDevice (opens : Nat → Bool) (s : AMState) : AMState × Bool :=
  if s.numDevices ≤ s.currentDeviceIdx then (s, false)
  else
    let s1 : AMState := { s with paStream := none }
    if opens s.currentDeviceIdx then ({ s1 with paStream := some s.currentDeviceIdx }, true)
    else (s1, false)

/-- StartCapture: open the current device first when no stream is open,
then start the stream. -/
def StartCapture (opens : Nat → Bool) (startOk : Bool) (s : AMState) : AMState × Bool :=
  let opened := if s.paStream.isNone then OpenCurrentDevice opens s else (s, true)
  if opened.2 = false then opened
  else if startOk then ({ opened.1 with isCapturing := true }, true)
  else (opened.1, false)

/-- StopCapture: stop only when a stream is open and capturing; always a
nil error. -/
def StopCapture (s : AMState) : AMState × Bool :=
  if s.paStream.isSome && s.isCapturing then ({ s with isCapturing := false }, true)
  else (s, true)

/-- CycleDevice: stop when capturing, advance the index mod the device
count, open the new current device, restart when it was capturing. -/
def CycleDevice (opens : Nat → Bool) (startOk : Bool) (s : AMState) : AMState × Bool :=
  let wasCapturing := s.isCapturing
  let s1 := if wasCapturing then (StopCapture s).1 else s
  let s2 : AMState := { s1 with currentDeviceIdx := (s1.currentDeviceIdx + 1) % s1.numDevices }
  let opened := OpenCurrentDevice opens s2
  if opened.2 = false then opened
  else if wasCapturing then StartCapture opens startOk opened.1
  else (opened.1, true)

/-- GetPeakLevel: the stored peak amplified by 100 for visualization. -/
def GetPeakLevel (s : AMState) : ℚ := s.peakLevel * 100

/-- audioCallback: store the raw buffer peak, with no sensitivity factor
and no clamping. -/
def audioCallback (s : AMState) (inputBuffer : List (List ℚ)) : AMState :=
  if inputBuffer.isEmpty then s
  else { s with peakLevel := bufferPeak inputBuffer }

/-- Cleanup: StopCapture, close the stream only when one is open (and nil
the handle), terminate the subsystem only when isInitialized (and clear
the flag).  The returned list records the native calls made. -/
def Cleanup (s : AMState) : AMState × List NativeAction :=
  let s1 := (StopCapture s).1
  let closed :=
    if s1.paStream.isSome then
      (({ s1 with paStream := none } : AMState), [NativeAction.closeStream])
    else (s1, [])
  let terminated :=
    if closed.1.isInitialized then
      (({ closed.1 with isInitialized := false } : AMState), [NativeAction.terminate])
    else (closed.1, [])
  (terminated.1, closed.2 ++ terminated.2)

end AudioManager

/-! ## AudioPlayer tick feed (src/unnamed/part_014, lines 84-107)

Each visualizer tick reads GetPeakLevel from the manager, multiplies by
the user sensitivity divided by 100, and feeds the result into
SystemPeakAnalyzer.UpdatePeak with no clamping. -/

structure APState where
  peakAnalyzer : SystemPeakAnalyzer
  peakSensitivity : ℚ
  am : AMState
deriving DecidableEq, Repr

/-- The value one visualizer tick feeds into UpdatePeak. -/
def tickFeed (s : APState) : ℚ :=
  let rawPeak := AudioManager.GetPeakLevel s.am
  rawPeak * s.peakSensitivity / 100

/-- One visualizer tick: compute the feed and update the analyzer. -/
def tickAnalyzer (s : APState) : APState :=
  { s with peakAnalyzer := UpdatePeak s.peakAnalyzer (tickFeed s) }

/-- AudioPlayer.Stop: stops the ticker and delegates to
AudioManager.StopCapture; the analyzer is not touched. -/
def AudioPlayerStop (s : APState) : APState × Bool :=
  let stopped := AudioManager.StopCapture s.am
  ({ s with am := stopped.1 }, stopped.2)

/-! ## Player capture lifecycle (src/unnamed/part_000 and part_001)

The two Player revisions share NewPlayer, openStream, Start, Stop,
audioCallback and Cleanup; they differ in CycleDevice.  The revision of
part_001 (and the first revision in part_000) advances the index and does
not roll back when the new device fails to open; the second revision in
part_000 (lines 604-637) restores the previous index and stream. -/

structure PlayerState where
  numDevices : Nat
  currentDeviceIdx : Nat
  paStream : Option Nat
  running : Bool
  sensitivity : ℚ
  peakLevel : ℚ
deriving DecidableEq, Repr

namespace Player

/-- NewPlayer: no devices yet, no stream, sensitivity 1.0. -/
def NewPlayer : PlayerState :=
  { numDevices := 0, currentDeviceIdx := 0, paStream := none,
    running := false, sensitivity := 1, peakLevel := 0 }

/-- openStream: close any existing stream, then open the given device; on
a failed native open the stream handle is nil. -/
def openStream (opens : Nat → Bool) (s : PlayerState) (device : Nat) :
    PlayerState × Bool :=
  let s1 : PlayerState := { s with paStream := none }
  if opens device then ({ s1 with paStream := some device }, true)
  else (s1, false)

/-- Start: error when the stream is nil or the native start fails;
otherwise set running. -/
def Start (startOk : Bool) (s : PlayerState) : PlayerState × Bool :=
  if s.paStream.isNone then (s, false)
  else if startOk then ({ s with running := true }, true)
  else (s, false)

/-- Stop: stop the native stream only when one is open and running; no
error is ever reported. -/
def Stop (s : PlayerState) : PlayerState :=
  if s.paStream.isSome && s.running then { s with running := false } else s

/-- audioCallback: buffer peak times sensitivity, clamped above at 1.0,
published as the peak level. -/
def audioCallback (s : PlayerState) (inputBuffer : List (List ℚ)) : PlayerState :=
  if inputBuffer.isEmpty then s
  else
    let peak := bufferPeak inputBuffer * s.sensitivity
    let clamped := if peak > 1 then 1 else peak
    { s with peakLevel := clamped }

/-- Cleanup: Stop, close the stream when the handle is non-nil (the handle
is never cleared), then terminate the subsystem unconditionally. -/
def Cleanup (s : PlayerState) : PlayerState × List NativeAction :=
  let s1 := Stop s
  let closeActs := if s1.paStream.isSome then [NativeAction.closeStream] else []
  (s1, closeActs ++ [NativeAction.terminate])

/-- CycleDevice of part_001 (and of the first revision in part_000): a
no-op with fewer than two devices; otherwise advance the index, stop, open
the new device (giving up on failure with the index already advanced), and
start. -/
def CycleDeviceNoRollback (opens : Nat → Bool) (startOk : Bool) (s : PlayerState) :
    PlayerState :=
  if s.numDevices ≤ 1 then s
  else
    let s1 : PlayerState := { s with currentDeviceIdx := (s.currentDeviceIdx + 1) % s.numDevices }
    let nextDevice := s1.currentDeviceIdx
    let s2 := Stop s1
    let opened := openStream opens s2 nextDevice
    if opened.2 = false then opened.1
    else (Start startOk opened.1).1

/-- CycleDevice of the second revision in part_000 (lines 604-637): on a
failed open of the next device, restore the previous index, reopen the
previous device, and restart when it was running before. -/
def CycleDeviceRollback (opens : Nat → Bool) (startOk : Bool) (s : PlayerState) :
    PlayerState :=
  if s.numDevices ≤ 1 then s
  else
    let wasRunning := s.running
    let prevDeviceIdx := s.currentDeviceIdx
    let s1 : PlayerState := { s with currentDeviceIdx := (s.currentDeviceIdx + 1) % s.numDevices }
    let nextDevice := s1.currentDeviceIdx
    let s2 := if wasRunning then Stop s1 else s1
    let opened := openStream opens s2 nextDevice
    if opened.2 = false then
      let s3 : PlayerState := { opened.1 with currentDeviceIdx := prevDeviceIdx }
      let reopened := openStream opens s3 prevDeviceIdx
      if wasRunning then (Start startOk reopened.1).1 else reopened.1
    else
      if wasRunning then (Start startOk opened.1).1 else opened.1

end Player

/-! ## Claim theorems -/

/-- Claim C2: UpdatePeak leaves the envelope equal to max(envelope*decay,
input) and keeps the decay factor; GetPeak returns the current envelope
without mutating the analyzer; and with decay 0.9 and envelope initially
0, the update sequence 0.8, 0.1, 0.1 yields the read sequence 0.8, 0.72,
0.648. -/
theorem claim_C2 :
    (∀ (a : SystemPeakAnalyzer) (p : ℚ),
        (UpdatePeak a p).Peak = max (a.Peak * a.decay) p ∧
        (UpdatePeak a p).decay = a.decay) ∧
    (∀ a : SystemPeakAnalyzer, GetPeak a = (a.Peak, a)) ∧
    (let a0 : SystemPeakAnalyzer := { Peak := 0, decay := 9 / 10 }
     let a1 := UpdatePeak a0 (8 / 10)
     let a2 := UpdatePeak a1 (1 / 10)
     let a3 := UpdatePeak a2 (1 / 10)
     (GetPeak a1).1 = 8 / 10 ∧ (GetPeak a2).1 = 72 / 100 ∧ (GetPeak a3).1 = 648 / 1000) := by
  refine ⟨fun a p => ⟨updatePeak_peak a p, updatePeak_decay a p⟩, fun a => rfl, ?_⟩
  norm_num [UpdatePeak, GetPeak]

/-- Claim C4: starting from the initial envelope 0 with decay in (0,1) and
nonnegative update inputs, the envelope stays nonnegative; a read never
changes the state; along a chain of update(0) calls the envelope is
non-increasing; and update(p) followed by one update(0) from the initial
analyzer leaves the envelope at p * decay. -/
theorem claim_C4 :
    (∀ (d : ℚ) (ops : List PeakOp), 0 < d → d < 1 → OpsNonneg ops →
        0 ≤ (runOps { Peak := 0, decay := d } ops).Peak) ∧
    (∀ a : SystemPeakAnalyzer, (GetPeak a).2 = a) ∧
    (∀ (a : SystemPeakAnalyzer) (n : ℕ), 0 ≤ a.Peak → 0 < a.decay → a.decay < 1 →
        (runOps a (List.replicate (n + 1) (PeakOp.update 0))).Peak ≤
          (runOps a (List.replicate n (PeakOp.update 0))).Peak) ∧
    (∀ (d p : ℚ), 0 ≤ p → 0 < d →
        (UpdatePeak (UpdatePeak { Peak := 0, decay := d } p) 0).Peak = p * d) := by
  refine ⟨?_, fun a => rfl, ?_, ?_⟩
  · intro d ops hd _ hops
    exact runOps_peak_nonneg ops _ le_rfl (le_of_lt hd) hops
  · intro a n hP hd hd1
    rw [runOps_updateZero_pow (n + 1) a hP (le_of_lt hd),
      runOps_updateZero_pow n a hP (le_of_lt hd)]
    exact mul_le_mul_of_nonneg_left
      (pow_le_pow_of_le_one (le_of_lt hd) (le_of_lt hd1) (Nat.le_succ n)) hP
  · intro d p hp hd
    have h1 : (UpdatePeak { Peak := 0, decay := d } p).Peak = p := by
      rw [updatePeak_peak]
      simp [max_eq_right hp]
    rw [updatePeak_peak, h1, updatePeak_decay,
      max_eq_left (mul_nonneg hp (le_of_lt hd))]

/-- Witness for claim C4: a concrete run with decay 1/2. -/
theorem claim_C4_witness :
    0 ≤ (runOps { Peak := 0, decay := 1 / 2 } [PeakOp.update 1, PeakOp.read]).Peak ∧
    (GetPeak NewSystemPeakAnalyzer).2 = NewSystemPeakAnalyzer ∧
    (runOps { Peak := (1 : ℚ), decay := 1 / 2 } (List.replicate (1 + 1) (PeakOp.update 0))).Peak ≤
      (runOps { Peak := (1 : ℚ), decay := 1 / 2 } (List.replicate 1 (PeakOp.update 0))).Peak ∧
    (UpdatePeak (UpdatePeak { Peak := 0, decay := 1 / 2 } 3) 0).Peak = 3 * (1 / 2) := by
  refine ⟨claim_C4.1 (1 / 2) [PeakOp.update 1, PeakOp.read] (by norm_num) (by norm_num) ?_,
    claim_C4.2.1 NewSystemPeakAnalyzer,
    claim_C4.2.2.1 { Peak := 1, decay := 1 / 2 } 1 (by norm_num) (by norm_num) (by norm_num),
    claim_C4.2.2.2 (1 / 2) 3 (by norm_num) (by norm_num)⟩
  intro q hq
  simp only [List.mem_cons, List.not_mem_nil, or_false] at hq
  rcases hq with h1 | h2
  · rw [show q = 1 from (PeakOp.update.injEq q 1).mp h1]
    norm_num
  · exact absurd h2 (by simp)

/-- Claim C5: opening a capture stream attempts the configurations of the
fixed preference table in order, succeeds with the first one the device
accepts (configurations asking for more channels than the device has are
skipped), and errors exactly when every table entry is skipped or
rejected. -/
theorem claim_C5 (accepts : StreamConfig → Bool) (maxInputChannels : Nat) :
    (openStreamWithDevice accepts maxInputChannels = none ↔
      ∀ c ∈ streamConfigs, maxInputChannels < c.channels ∨ accepts c = false) ∧
    (∀ c : StreamConfig, openStreamWithDevice accepts maxInputChannels = some c →
      c.channels ≤ maxInputChannels ∧ accepts c = true ∧
      ∃ pre post, streamConfigs = pre ++ c :: post ∧
        ∀ x ∈ pre, maxInputChannels < x.channels ∨ accepts x = false) :=
  ⟨tryConfigs_eq_none_iff accepts maxInputChannels streamConfigs,
   fun c => tryConfigs_eq_some accepts maxInputChannels streamConfigs c⟩

/-- Witness for claim C5: a device with 2 input channels accepting only
48kHz takes the third table entry, the earlier entries being rejected. -/
theorem claim_C5_witness :
    ({ channels := 2, sampleRate := 48000, bufferSize := 1024 } : StreamConfig).channels ≤ 2 ∧
    (fun c : StreamConfig => c.sampleRate == 48000)
        { channels := 2, sampleRate := 48000, bufferSize := 1024 } = true ∧
    ∃ pre post,
      streamConfigs = pre ++
        ({ channels := 2, sampleRate := 48000, bufferSize := 1024 } : StreamConfig) :: post ∧
      ∀ x ∈ pre, 2 < x.channels ∨ (fun c : StreamConfig => c.sampleRate == 48000) x = false :=
  (claim_C5 (fun c => c.sampleRate == 48000) 2).2
    { channels := 2, sampleRate := 48000, bufferSize := 1024 } (by decide)

/-- Claim C6 counterexample: two monitors of running sinks discovered in
the order a.monitor, b.monitor are enumerated as b.monitor, a.monitor —
equally-ranked entries are not kept in discovery order. -/
theorem claim_C6_counterexample :
    detectPulseMonitorSources ["a", "b"] ["a.monitor", "b.monitor"] =
      [{ source := "b.monitor", dtype := DevType.pulseMonitor },
       { source := "a.monitor", dtype := DevType.pulseMonitor }] ∧
    detectPulseMonitorSources ["a", "b"] ["a.monitor", "b.monitor"] ≠
      [{ source := "a.monitor", dtype := DevType.pulseMonitor },
       { source := "b.monitor", dtype := DevType.pulseMonitor }] := by
  constructor
  · decide
  · decide

/-- Claim C6 (amended): enumeration of a fixed snapshot is a deterministic
function producing: monitors of running sinks first but in reverse
discovery order, then monitors of non-running sinks in discovery order,
then native input devices in discovery order. -/
theorem claim_C6_amended (runningSinks : List String) (sources : List String)
    (paDevices : List PADeviceInfo) :
    detectAudioSources runningSinks sources paDevices =
      ((sources.filter (isRunningMonitor runningSinks)).reverse.map mkMonitorEntry)
        ++ ((sources.filter (isIdleMonitor runningSinks)).map mkMonitorEntry)
        ++ detectPortAudioDevices paDevices :=
  detectAudioSources_characterization runningSinks sources paDevices

/-- Claim C1 counterexample: AudioManager.CycleDevice with two devices,
device 0 open and capturing, and device 1 failing to open, returns with
the index advanced to 1, no open stream, and capture stopped — not the
pre-call state. -/
theorem claim_C1_counterexample :
    (let s : AMState := { numDevices := 2, currentDeviceIdx := 0, paStream := some 0,
                          isCapturing := true, isInitialized := true, peakLevel := 0 }
     let result := AudioManager.CycleDevice (fun i => i == 0) true s
     result.1.currentDeviceIdx = 1 ∧ result.1.paStream = none ∧
       result.1.isCapturing = false ∧ result.2 = false) := by
  refine ⟨rfl, rfl, rfl, rfl⟩

/-- Claim C1 (amended): the invariant holds for the rollback revision of
Player.CycleDevice in part_000: with at least two devices, device i open
and running, the reopen of device i succeeding, and the target device
(i+1 mod N) failing to open, the call leaves the state exactly as it
was. -/
theorem claim_C1_amended (opens : Nat → Bool) (s : PlayerState)
    (hN : 2 ≤ s.numDevices) (hstream : s.paStream = some s.currentDeviceIdx)
    (hrun : s.running = true)
    (hcur : opens s.currentDeviceIdx = true)
    (hnext : opens ((s.currentDeviceIdx + 1) % s.numDevices) = false) :
    Player.CycleDeviceRollback opens true s = s := by
  obtain ⟨N, idx, stream, run, sens, pl⟩ := s
  simp only at hN hstream hrun hcur hnext
  subst hstream hrun
  simp [Player.CycleDeviceRollback, Player.Stop, Player.openStream, Player.Start,
    hcur, hnext, Nat.not_le.mpr (by omega : 1 < N)]

/-- Witness for claim C1: two devices, device 0 open and running, device 1
failing to open; CycleDevice restores the exact pre-call state. -/
theorem claim_C1_witness :
    Player.CycleDeviceRollback (fun i => i == 0) true
        { numDevices := 2, currentDeviceIdx := 0, paStream := some 0,
          running := true, sensitivity := 1, peakLevel := 0 } =
      { numDevices := 2, currentDeviceIdx := 0, paStream := some 0,
        running := true, sensitivity := 1, peakLevel := 0 } :=
  claim_C1_amended (fun i => i == 0)
    { numDevices := 2, currentDeviceIdx := 0, paStream := some 0,
      running := true, sensitivity := 1, peakLevel := 0 }
    (by decide) (by decide) (by decide) (by decide) (by decide)

/-- Claim C10: with fewer than two enumerated devices, Player.CycleDevice
returns immediately and the whole state (device index, stream, running
flag, loudness) is unchanged. -/
theorem claim_C10 (opens : Nat → Bool) (startOk : Bool) (s : PlayerState)
    (h : s.numDevices ≤ 1) :
    Player.CycleDeviceNoRollback opens startOk s = s := by
  rw [Player.CycleDeviceNoRollback, if_pos h]

/-- Witness for claim C10: a freshly constructed player has zero devices,
so CycleDevice is a no-op. -/
theorem claim_C10_witness :
    Player.CycleDeviceNoRollback (fun i => i == 0) true Player.NewPlayer = Player.NewPlayer :=
  claim_C10 (fun i => i == 0) true Player.NewPlayer (by decide)

theorem stopCapture_ok (m : AMState) : (AudioManager.StopCapture m).2 = true := by
  rw [AudioManager.StopCapture]
  by_cases h : m.paStream.isSome && m.isCapturing
  · rw [if_pos h]
  · rw [if_neg h]

theorem stopCapture_noop (m : AMState) (h : m.isCapturing = false) :
    (AudioManager.StopCapture m).1 = m := by
  rw [AudioManager.StopCapture]
  rw [if_neg (by simp [h])]

/-- Claim C3 counterexample: a raw sample of magnitude 1.0 stored by the
AudioManager callback, combined with the valid sensitivity 5.0, makes the
visualizer tick feed 5 into UpdatePeak — outside [0,1]. -/
theorem claim_C3_counterexample :
    (let am0 : AMState := { numDevices := 1, currentDeviceIdx := 0, paStream := some 0,
                            isCapturing := true, isInitialized := true, peakLevel := 0 }
     let am1 := AudioManager.audioCallback am0 [[1]]
     let ap : APState := { peakAnalyzer := NewSystemPeakAnalyzer, peakSensitivity := 5, am := am1 }
     (2 / 10 : ℚ) ≤ ap.peakSensitivity ∧ ap.peakSensitivity ≤ 5 ∧
       tickFeed ap = 5 ∧ ¬ tickFeed ap ≤ 1) := by
  norm_num [AudioManager.audioCallback, AudioManager.GetPeakLevel, tickFeed,
    bufferPeak, channelPeak]

/-- Claim C3 (amended): the value the visualizer tick feeds into the peak
detector is always nonnegative but is not clamped above (see the
counterexample); the Player-revision audio callback does clamp its
published peak level into [0,1]. -/
theorem claim_C3_amended :
    (∀ (am : AMState) (inputBuffer : List (List ℚ)) (sens : ℚ),
        0 ≤ am.peakLevel → 0 ≤ sens →
        0 ≤ tickFeed { peakAnalyzer := NewSystemPeakAnalyzer, peakSensitivity := sens,
                       am := AudioManager.audioCallback am inputBuffer }) ∧
    (∀ (s : PlayerState) (inputBuffer : List (List ℚ)),
        inputBuffer.isEmpty = false → 0 ≤ s.sensitivity →
        0 ≤ (Player.audioCallback s inputBuffer).peakLevel ∧
          (Player.audioCallback s inputBuffer).peakLevel ≤ 1) := by
  constructor
  · intro am buf sens hpl hs
    have hfeed : 0 ≤ (AudioManager.audioCallback am buf).peakLevel := by
      rw [AudioManager.audioCallback]
      by_cases h : buf.isEmpty
      · rw [if_pos h]; exact hpl
      · rw [if_neg h]; exact bufferPeak_nonneg buf
    rw [tickFeed, AudioManager.GetPeakLevel]
    have h100 : (0:ℚ) ≤ 100 := by norm_num
    exact div_nonneg (mul_nonneg (mul_nonneg hfeed h100) hs) h100
  · intro s buf hne hs
    rw [Player.audioCallback, if_neg (by rw [hne]; exact Bool.false_ne_true)]
    have hpk : 0 ≤ bufferPeak buf * s.sensitivity :=
      mul_nonneg (bufferPeak_nonneg buf) hs
    by_cases h : bufferPeak buf * s.sensitivity > 1
    · simp only [h, if_pos]
      norm_num
    · simp only [h, if_neg]
      exact ⟨hpk, le_of_not_lt h⟩

/-- Witness for claim C3: a half-amplitude sample at sensitivity 1 gives a
published Player peak of 1/2, inside [0,1]. -/
theorem claim_C3_witness :
    0 ≤ (Player.audioCallback
        { numDevices := 1, currentDeviceIdx := 0, paStream := some 0,
          running := true, sensitivity := 1, peakLevel := 0 } [[1 / 2]]).peakLevel ∧
      (Player.audioCallback
        { numDevices := 1, currentDeviceIdx := 0, paStream := some 0,
          running := true, sensitivity := 1, peakLevel := 0 } [[1 / 2]]).peakLevel ≤ 1 :=
  claim_C3_amended.2
    { numDevices := 1, currentDeviceIdx := 0, paStream := some 0,
      running := true, sensitivity := 1, peakLevel := 0 }
    [[1 / 2]] rfl (by norm_num)

/-- Claim C7 counterexample: AudioManager.StartCapture called with no open
stream does not report an error — it opens the current device itself and
starts capturing. -/
theorem claim_C7_counterexample :
    (let s : AMState := { numDevices := 1, currentDeviceIdx := 0, paStream := none,
                          isCapturing := false, isInitialized := true, peakLevel := 0 }
     let result := AudioManager.StartCapture (fun i => i == 0) true s
     result.2 = true ∧ result.1.isCapturing = true ∧ result.1.paStream = some 0) := by
  exact ⟨rfl, rfl, rfl⟩

/-- Claim C7 (amended): Player.Start errors exactly when no stream is open
or the native start is rejected, and success implies running;
AudioManager.StartCapture with no open stream first attempts to open the
current device, erroring exactly when that open fails or the native start
is rejected, and success implies capturing. -/
theorem claim_C7_amended :
    (∀ (startOk : Bool) (s : PlayerState),
        (Player.Start startOk s).2 = (s.paStream.isSome && startOk)) ∧
    (∀ (startOk : Bool) (s : PlayerState),
        (Player.Start startOk s).2 = true → (Player.Start startOk s).1.running = true) ∧
    (∀ (opens : Nat → Bool) (startOk : Bool) (s : AMState),
        (AudioManager.StartCapture opens startOk s).2 =
          ((s.paStream.isSome ||
            (!(decide (s.numDevices ≤ s.currentDeviceIdx)) && opens s.currentDeviceIdx))
            && startOk)) ∧
    (∀ (opens : Nat → Bool) (startOk : Bool) (s : AMState),
        (AudioManager.StartCapture opens startOk s).2 = true →
          (AudioManager.StartCapture opens startOk s).1.isCapturing = true) := by
  refine ⟨?_, ?_, ?_, ?_⟩
  · intro startOk s
    cases hp : s.paStream <;> cases startOk <;>
      simp [Player.Start, hp]
  · intro startOk s h
    cases hp : s.paStream <;> cases startOk <;>
      simp [Player.Start, hp] at h ⊢
  · intro opens startOk s
    cases hp : s.paStream with
    | some v =>
        cases startOk <;> simp [AudioManager.StartCapture, hp]
    | none =>
        by_cases hle : s.numDevices ≤ s.currentDeviceIdx
        · simp [AudioManager.StartCapture, AudioManager.OpenCurrentDevice, hp, hle]
        · cases ho : opens s.currentDeviceIdx <;> cases startOk <;>
            simp [AudioManager.StartCapture, AudioManager.OpenCurrentDevice, hp, hle, ho]
  · intro opens startOk s h
    cases hp : s.paStream with
    | some v =>
        cases startOk <;>
          simp [AudioManager.StartCapture, hp] at h ⊢
    | none =>
        by_cases hle : s.numDevices ≤ s.currentDeviceIdx
        · simp [AudioManager.StartCapture, AudioManager.OpenCurrentDevice, hp, hle] at h
        · cases ho : opens s.currentDeviceIdx <;> cases startOk <;>
            simp [AudioManager.StartCapture, AudioManager.OpenCurrentDevice, hp, hle, ho] at h ⊢

/-- Witness for claim C7: a player with an open stream and accepted native
start reports running after Start. -/
theorem claim_C7_witness :
    (Player.Start true
        { numDevices := 1, currentDeviceIdx := 0, paStream := some 0,
          running := false, sensitivity := 1, peakLevel := 0 }).1.running = true :=
  claim_C7_amended.2.1 true
    { numDevices := 1, currentDeviceIdx := 0, paStream := some 0,
      running := false, sensitivity := 1, peakLevel := 0 } rfl

/-- Claim C8: stopping is idempotent and error-free, and it leaves both the
published peak level and the analyzer envelope (hence its later decay
behavior) untouched; this holds for the AudioPlayer stop over the manager
and for the Player revisions. -/
theorem claim_C8 :
    (∀ s : APState, (AudioPlayerStop s).2 = true) ∧
    (∀ s : APState, s.am.isCapturing = false → (AudioPlayerStop s).1 = s) ∧
    (∀ s : APState, AudioPlayerStop (AudioPlayerStop s).1 = ((AudioPlayerStop s).1, true)) ∧
    (∀ s : APState, (AudioPlayerStop s).1.peakAnalyzer = s.peakAnalyzer ∧
        (AudioPlayerStop s).1.peakSensitivity = s.peakSensitivity ∧
        (AudioPlayerStop s).1.am.peakLevel = s.am.peakLevel) ∧
    (∀ s : PlayerState, Player.Stop (Player.Stop s) = Player.Stop s) ∧
    (∀ s : PlayerState, s.running = false → Player.Stop s = s) ∧
    (∀ s : PlayerState, (Player.Stop s).peakLevel = s.peakLevel) := by
  refine ⟨?_, ?_, ?_, ?_, ?_, ?_, ?_⟩
  · intro s
    rw [AudioPlayerStop]
    exact stopCapture_ok s.am
  · intro s h
    rw [AudioPlayerStop]
    simp [stopCapture_noop s.am h]
  · intro s
    by_cases h : s.am.paStream.isSome && s.am.isCapturing <;>
      simp [AudioPlayerStop, AudioManager.StopCapture, h]
  · intro s
    by_cases h : s.am.paStream.isSome && s.am.isCapturing <;>
      simp [AudioPlayerStop, AudioManager.StopCapture, h]
  · intro s
    by_cases h : s.paStream.isSome && s.running <;>
      simp [Player.Stop, h]
  · intro s h
    rw [Player.Stop, if_neg (by simp [h])]
  · intro s
    by_cases h : s.paStream.isSome && s.running <;>
      simp [Player.Stop, h]

/-- Witness for claim C8: stopping an already-stopped AudioPlayer changes
nothing. -/
theorem claim_C8_witness :
    (AudioPlayerStop
        { peakAnalyzer := NewSystemPeakAnalyzer, peakSensitivity := 1,
          am := { numDevices := 1, currentDeviceIdx := 0, paStream := some 0,
                  isCapturing := false, isInitialized := true, peakLevel := 0 } }).1 =
      { peakAnalyzer := NewSystemPeakAnalyzer, peakSensitivity := 1,
        am := { numDevices := 1, currentDeviceIdx := 0, paStream := some 0,
                isCapturing := false, isInitialized := true, peakLevel := 0 } } :=
  claim_C8.2.1
    { peakAnalyzer := NewSystemPeakAnalyzer, peakSensitivity := 1,
      am := { numDevices := 1, currentDeviceIdx := 0, paStream := some 0,
              isCapturing := false, isInitialized := true, peakLevel := 0 } } rfl

/-- Claim C9 counterexample: Player.Cleanup on a freshly constructed,
never-initialized player still issues a terminate call to the native
subsystem. -/
theorem claim_C9_counterexample :
    NativeAction.terminate ∈ (Player.Cleanup Player.NewPlayer).2 ∧
    (Player.Cleanup Player.NewPlayer).2 = [NativeAction.terminate] := by
  have h : (Player.Cleanup Player.NewPlayer).2 = [NativeAction.terminate] := rfl
  exact ⟨h ▸ List.mem_singleton.mpr rfl, h⟩

/-- Claim C9 (amended): AudioManager.Cleanup closes a stream only when one
is open, terminates the native subsystem only when it was successfully
initialized, and a second Cleanup performs no native call at all; the
Player and SimpleAudioTester revisions instead terminate unconditionally
(see the counterexample). -/
theorem claim_C9_amended :
    (∀ s : AMState, NativeAction.terminate ∈ (AudioManager.Cleanup s).2 →
        s.isInitialized = true) ∧
    (∀ s : AMState, NativeAction.closeStream ∈ (AudioManager.Cleanup s).2 →
        s.paStream.isSome = true) ∧
    (∀ s : AMState, (AudioManager.Cleanup (AudioManager.Cleanup s).1).2 = []) := by
  have hacts : ∀ s : AMState,
      (AudioManager.Cleanup s).2 =
        (if s.paStream.isSome then [NativeAction.closeStream] else []) ++
          (if s.isInitialized then [NativeAction.terminate] else []) := by
    intro s
    by_cases hcap : s.isCapturing <;>
      by_cases hp : s.paStream.isSome <;>
        by_cases hi : s.isInitialized <;>
          simp [AudioManager.Cleanup, AudioManager.StopCapture, hcap, hp, hi]
  have hstate : ∀ s : AMState,
      (AudioManager.Cleanup s).1.paStream = none ∧
        (AudioManager.Cleanup s).1.isInitialized = false := by
    intro s
    by_cases hcap : s.isCapturing <;>
      by_cases hp : s.paStream.isSome <;>
        by_cases hi : s.isInitialized <;>
          simp [AudioManager.Cleanup, AudioManager.StopCapture, hcap, hp, hi] <;>
            exact Option.not_isSome_iff_eq_none.mp hp
  refine ⟨?_, ?_, ?_⟩
  · intro s h
    rw [hacts s] at h
    by_cases hp : s.paStream.isSome <;> by_cases hi : s.isInitialized <;>
      simp [hp, hi] at h <;> try exact hi
  · intro s h
    rw [hacts s] at h
    by_cases hp : s.paStream.isSome <;> by_cases hi : s.isInitialized <;>
      simp [hp, hi] at h <;> try exact hp
  · intro s
    rw [hacts ((AudioManager.Cleanup s).1), (hstate s).1, (hstate s).2]
    simp

/-- Witness for claim C9: a fully initialized manager whose Cleanup emits
the terminate call indeed had the initialization flag set. -/
theorem claim_C9_witness :
    ({ numDevices := 1, currentDeviceIdx := 0, paStream := some 0,
       isCapturing := true, isInitialized := true, peakLevel := 0 } : AMState).isInitialized
      = true :=
  claim_C9_amended.1
    { numDevices := 1, currentDeviceIdx := 0, paStream := some 0,
      isCapturing := true, isInitialized := true, peakLevel := 0 }
    (by simp [AudioManager.Cleanup, AudioManager.StopCapture])

end Milkshaker
